import Mathlib

/-!
Shallow embedding of `src/config_validator/suite.py` (Config Validation
Suite): the generic decoded-value model, the recursive schema validator
(`_validate_schema`, `_validate_object`, `_check_type`), the loading
facade (`ConfigValidationSuite.validate`, `_load_config`), and theorems
settling the specification claims.
-/

set_option maxHeartbeats 1000000

namespace ConfigValidator

/-- GenericValue: the decoded configuration tree that the JSON/TOML/INI
decoders produce and the validator consumes.  Python `None`, `bool`,
`int`, `float`, `str`, `list`, `dict` map to the seven variants.  Python's
`bool` is a subclass of `int`; the source excludes it explicitly in
`_check_type` (`not isinstance(x, bool)`), which here corresponds to the
`bool` variant being distinct from `int`.  Float payloads are modelled as
rationals (every finite IEEE double is one). -/
inductive GenericValue : Type where
  | null : GenericValue
  | bool : Bool → GenericValue
  | int : Int → GenericValue
  | float : Rat → GenericValue
  | str : String → GenericValue
  | arr : List GenericValue → GenericValue
  | obj : List (String × GenericValue) → GenericValue

/-- Look up a key in a decoded mapping (Python `data[key]` / `key in data`;
decoded dicts have unique keys). -/
def lookupKey : List (String × GenericValue) → String → Option GenericValue
  | [], _ => none
  | (k, v) :: rest, key => if k = key then some v else lookupKey rest key

mutual

/-- Python value equality (`==`) on decoded values: booleans compare equal
to the numbers 0/1 (`True == 1`), ints compare equal to floats of the same
numeric value, lists compare elementwise, dicts by key set and per-key
value.  Used by the `data not in enum_values` membership test. -/
def pyEq : GenericValue → GenericValue → Bool
  | .null, .null => true
  | .bool a, .bool b => a = b
  | .bool a, .int n => (if a then (1 : Int) else 0) = n
  | .int n, .bool b => n = (if b then (1 : Int) else 0)
  | .bool a, .float q => ((if a then (1 : Int) else 0) : Rat) = q
  | .float q, .bool b => q = ((if b then (1 : Int) else 0) : Rat)
  | .int m, .int n => m = n
  | .int m, .float q => (m : Rat) = q
  | .float q, .int n => q = (n : Rat)
  | .float p, .float q => p = q
  | .str s, .str t => s = t
  | .arr xs, .arr ys => pyEqList xs ys
  | .obj xs, .obj ys => xs.length = ys.length && pyEqObj xs ys
  | _, _ => false

/-- Elementwise Python equality of two lists. -/
def pyEqList : List GenericValue → List GenericValue → Bool
  | [], [] => true
  | x :: xs, y :: ys => pyEq x y && pyEqList xs ys
  | _, _ => false

/-- Every key of the first dict is present in the second with a
Python-equal value (with equal sizes and unique keys this is dict
equality). -/
def pyEqObj : List (String × GenericValue) → List (String × GenericValue) → Bool
  | [], _ => true
  | (k, v) :: rest, ys =>
    (match lookupKey ys k with
     | some w => pyEq v w
     | none => false) && pyEqObj rest ys

end

/-- Escape one character of a Python string repr, given the chosen quote
character. -/
def pyEscapeChar (quote : Char) (c : Char) : String :=
  if c = Char.ofNat 92 then "\\\\"
  else if c = quote then "\\" ++ String.singleton quote
  else if c = Char.ofNat 10 then "\\n"
  else if c = Char.ofNat 13 then "\\r"
  else if c = Char.ofNat 9 then "\\t"
  else String.singleton c

/-- Python `repr` of a string: single quotes, switching to double quotes
when the text contains a single quote but no double quote; backslash,
quote, and control characters escaped.  (Non-printable escapes beyond
newline/return/tab are not modelled.) -/
def pyReprString (s : String) : String :=
  let sq : Char := Char.ofNat 39
  let dq : Char := Char.ofNat 34
  let quote : Char := if s.toList.contains sq && !s.toList.contains dq then dq else sq
  String.singleton quote ++ String.join (s.toList.map (pyEscapeChar quote))
    ++ String.singleton quote

/-- Decimal digits of a fraction `r / d` (with `r < d`), up to the given
fuel; terminates early once the remainder is zero. -/
def fracDigits : Nat → Nat → Nat → String
  | 0, _, _ => ""
  | _ + 1, 0, _ => ""
  | fuel + 1, r, d =>
    toString ((r * 10) / d) ++ fracDigits fuel ((r * 10) % d) d

/-- Python `repr` of a float, modelled on the rational payload: sign,
integer part, a dot, then the fractional digits (`"0"` when the value is
integral, matching e.g. `repr(1.0) = "1.0"`).  Exact for floats whose
shortest decimal repr is a plain terminating decimal. -/
def floatRepr (q : Rat) : String :=
  let sign := if q.num < 0 then "-" else ""
  let n := q.num.natAbs
  let ipart := n / q.den
  let fpart := n % q.den
  let fdigits := if fpart = 0 then "0" else fracDigits 17 fpart q.den
  sign ++ toString ipart ++ "." ++ fdigits

mutual

/-- Python `repr` of a decoded value, as interpolated by `{value!r}` and
`{enum_values!r}` in the source's error messages. -/
def pyRepr : GenericValue → String
  | .null => "None"
  | .bool true => "True"
  | .bool false => "False"
  | .int n => toString n
  | .float q => floatRepr q
  | .str s => pyReprString s
  | .arr xs => "[" ++ String.intercalate ", " (pyReprList xs) ++ "]"
  | .obj kvs => "\x7b" ++ String.intercalate ", " (pyReprPairs kvs) ++ "\x7d"

/-- Reprs of the elements of a list. -/
def pyReprList : List GenericValue → List String
  | [] => []
  | x :: xs => pyRepr x :: pyReprList xs

/-- Reprs of the `key: value` entries of a dict. -/
def pyReprPairs : List (String × GenericValue) → List String
  | [] => []
  | (k, v) :: rest => (pyReprString k ++ ": " ++ pyRepr v) :: pyReprPairs rest

end

/-- Embeds `_check_type` (suite.py lines 167-182): the per-type predicate
table keyed by the declared type string; `none` means the check passed,
`some msg` is the failure message.  The source's
`isinstance(x, (int, float)) and not isinstance(x, bool)` /
`isinstance(x, int) and not isinstance(x, bool)` guards correspond to the
`int`/`float` variants being distinct from `bool`; its
`isinstance(x, Sequence) and not isinstance(x, (str, bytes, bytearray))`
corresponds to the `arr` variant being distinct from `str`. -/
def checkType (value : GenericValue) (expected : String) : Option String :=
  let checker : Option (GenericValue → Bool) :=
    if expected = "string" then some fun x => match x with
      | .str _ => true | _ => false
    else if expected = "number" then some fun x => match x with
      | .int _ => true | .float _ => true | _ => false
    else if expected = "integer" then some fun x => match x with
      | .int _ => true | _ => false
    else if expected = "boolean" then some fun x => match x with
      | .bool _ => true | _ => false
    else if expected = "array" then some fun x => match x with
      | .arr _ => true | _ => false
    else if expected = "object" then some fun x => match x with
      | .obj _ => true | _ => false
    else if expected = "null" then some fun x => match x with
      | .null => true | _ => false
    else none
  match checker with
  | none => some ("Unknown schema type '" ++ expected ++ "'")
  | some c =>
    if c value then none
    else some ("Expected type '" ++ expected ++ "' but received value " ++ pyRepr value)

/-- SchemaNode: the interpreted schema mapping.  The source reads exactly
six keys from the schema dict: `type` (`schema.get("type")`, absent ↦
`none`), `enum` (`schema.get("enum")`), `required`
(`schema.get("required", [])`), `properties`
(`schema.get("properties", \x7b\x7d)`, in declared/insertion order),
`items` (`schema.get("items")`), and `additionalProperties`
(`schema.get("additionalProperties", True)`). -/
inductive SchemaNode : Type where
  | mk : Option String → Option (List GenericValue) → List String →
      List (String × SchemaNode) → Option SchemaNode → Bool → SchemaNode

/-- The schema's `type` entry (`schema.get("type")`). -/
def SchemaNode.type : SchemaNode → Option String
  | .mk t _ _ _ _ _ => t

/-- The schema's `enum` entry (`schema.get("enum")`). -/
def SchemaNode.enum : SchemaNode → Option (List GenericValue)
  | .mk _ e _ _ _ _ => e

/-- The schema's `required` entry (`schema.get("required", [])`). -/
def SchemaNode.required : SchemaNode → List String
  | .mk _ _ r _ _ _ => r

/-- The schema's `properties` entry (`schema.get("properties", \x7b\x7d)`). -/
def SchemaNode.properties : SchemaNode → List (String × SchemaNode)
  | .mk _ _ _ p _ _ => p

/-- The schema's `items` entry (`schema.get("items")`). -/
def SchemaNode.items : SchemaNode → Option SchemaNode
  | .mk _ _ _ _ i _ => i

/-- The schema's `additionalProperties` entry
(`schema.get("additionalProperties", True)`). -/
def SchemaNode.additionalProperties : SchemaNode → Bool
  | .mk _ _ _ _ _ a => a

/-- Insert a string into a sorted list (ascending, code-point order). -/
def insertSorted (x : String) : List String → List String
  | [] => [x]
  | y :: ys => if x ≤ y then x :: y :: ys else y :: insertSorted x ys

/-- Stable insertion sort on strings, modelling Python's `sorted` on `str`
(both orders are lexicographic by code point). -/
def sortStrings : List String → List String
  | [] => []
  | x :: xs => insertSorted x (sortStrings xs)

/-- Python `str.lower()` as applied to path suffixes
(`path.suffix.lower()`), modelled characterwise (ASCII suffices for
extension strings). -/
def lowerString (s : String) : String :=
  String.mk (s.toList.map Char.toLower)

/-- Size bound used for termination: a schema's `properties` list is
structurally smaller than the schema. -/
theorem sizeOf_properties_lt (s : SchemaNode) : sizeOf s.properties < sizeOf s := by
  cases s with
  | mk t e r p i a =>
    simp only [SchemaNode.properties, SchemaNode.mk.sizeOf_spec]
    omega

/-- Size bound used for termination: a schema's `items` subschema is
structurally smaller than the schema. -/
theorem sizeOf_items_lt {s i : SchemaNode} (h : s.items = some i) :
    sizeOf i < sizeOf s := by
  cases s with
  | mk t e r p it a =>
    simp only [SchemaNode.items] at h
    subst h
    simp only [SchemaNode.mk.sizeOf_spec, Option.some.sizeOf_spec]
    omega

mutual

/-- Embeds `_validate_schema` (suite.py lines 120-143).  `schema.get("type")`
is truthy iff it is present and not the empty string; on a type-check
failure the single path-prefixed message is returned at once.  Otherwise
the enum check runs, then the `object` branch (delegating to
`_validate_object`) or the `array`/`items` branch (the source's
`isinstance` guards select exactly the `obj` / `arr` variants). -/
def validateSchema (data : GenericValue) (schema : SchemaNode) (path : String) :
    List String :=
  let typeFail : Option String :=
    match schema.type with
    | some t => if t = "" then none else
        match checkType data t with
        | some e => some (path ++ ": " ++ e)
        | none => none
    | none => none
  match typeFail with
  | some e => [e]
  | none =>
    let enumErrs : List String :=
      match schema.enum with
      | some vs =>
        if vs.any (fun v => pyEq data v) then []
        else [path ++ ": value " ++ pyRepr data ++ " is not in allowed set "
                ++ pyRepr (.arr vs)]
      | none => []
    let structErrs : List String :=
      if schema.type = some "object" then
        match data with
        | .obj kvs => validateObject kvs schema path
        | _ => []
      else if schema.type = some "array" then
        match data with
        | .arr xs =>
          match hitems : schema.items with
          | some itemSchema => validateItems xs 0 itemSchema path
          | none => []
        | _ => []
      else []
    enumErrs ++ structErrs
termination_by (sizeOf schema, 1, 0)
decreasing_by
· decreasing_tactic
· exact Prod.Lex.left _ _ (sizeOf_items_lt hitems)

/-- Embeds `_validate_object` (suite.py lines 146-164): missing `required`
keys in declared order, then recursion into the `properties` present in
the data in declared order, then (only when `additionalProperties` is the
literal `False`) the unexpected keys in sorted order. -/
def validateObject (kvs : List (String × GenericValue)) (schema : SchemaNode)
    (path : String) : List String :=
  let reqErrs : List String :=
    schema.required.filterMap fun key =>
      if (lookupKey kvs key).isSome then none
      else some (path ++ ": missing required key '" ++ key ++ "'")
  let propErrs : List String := validateProps kvs schema.properties path
  let addlErrs : List String :=
    if schema.additionalProperties = false then
      (sortStrings ((kvs.map Prod.fst).filter
          (fun k => !(schema.properties.map Prod.fst).contains k))).map
        (fun key => path ++ ": unexpected key '" ++ key ++ "'")
    else []
  reqErrs ++ propErrs ++ addlErrs
termination_by (sizeOf schema, 0, 0)
decreasing_by
exact Prod.Lex.left _ _ (sizeOf_properties_lt schema)

/-- The `for key, subschema in properties.items()` loop of
`_validate_object`: recurse into each declared property present in the
data, path extended with `"." ++ key`. -/
def validateProps (kvs : List (String × GenericValue))
    (props : List (String × SchemaNode)) (path : String) : List String :=
  match props with
  | [] => []
  | (key, subschema) :: rest =>
    (match lookupKey kvs key with
     | some v => validateSchema v subschema (path ++ "." ++ key)
     | none => []) ++ validateProps kvs rest path
termination_by (sizeOf props, 2, 0)

/-- The `for index, value in enumerate(data)` loop of `_validate_schema`:
recurse `items` into each element, path extended with `"[" ++ index ++ "]"`. -/
def validateItems (xs : List GenericValue) (index : Nat) (itemSchema : SchemaNode)
    (path : String) : List String :=
  match xs with
  | [] => []
  | v :: rest =>
    validateSchema v itemSchema (path ++ "[" ++ toString index ++ "]")
      ++ validateItems rest (index + 1) itemSchema path
termination_by (sizeOf itemSchema, 2, xs.length)

end

/-- The type-check stage of `_validate_schema` in isolation: the
path-prefixed message when a truthy declared `type` fails `_check_type`. -/
def typeFailure (data : GenericValue) (schema : SchemaNode) (path : String) :
    Option String :=
  match schema.type with
  | some t => if t = "" then none else
      match checkType data t with
      | some e => some (path ++ ": " ++ e)
      | none => none
  | none => none

/-- The enum stage of `_validate_schema` in isolation (lines 130-132). -/
def enumErrors (data : GenericValue) (schema : SchemaNode) (path : String) :
    List String :=
  match schema.enum with
  | some vs =>
    if vs.any (fun v => pyEq data v) then []
    else [path ++ ": value " ++ pyRepr data ++ " is not in allowed set "
            ++ pyRepr (.arr vs)]
  | none => []

/-- The missing-required-key stage of `_validate_object` in isolation
(lines 148-151), guarded as in `_validate_schema` line 134. -/
def requiredErrors (data : GenericValue) (schema : SchemaNode) (path : String) :
    List String :=
  if schema.type = some "object" then
    match data with
    | .obj kvs =>
      schema.required.filterMap fun key =>
        if (lookupKey kvs key).isSome then none
        else some (path ++ ": missing required key '" ++ key ++ "'")
    | _ => []
  else []

/-- The per-property recursion stage of `_validate_object` in isolation
(lines 153-156). -/
def propertiesErrors (data : GenericValue) (schema : SchemaNode) (path : String) :
    List String :=
  if schema.type = some "object" then
    match data with
    | .obj kvs => validateProps kvs schema.properties path
    | _ => []
  else []

/-- The unexpected-key stage of `_validate_object` in isolation
(lines 158-163). -/
def additionalPropErrors (data : GenericValue) (schema : SchemaNode) (path : String) :
    List String :=
  if schema.type = some "object" then
    match data with
    | .obj kvs =>
      if schema.additionalProperties = false then
        (sortStrings ((kvs.map Prod.fst).filter
            (fun k => !(schema.properties.map Prod.fst).contains k))).map
          (fun key => path ++ ": unexpected key '" ++ key ++ "'")
      else []
    | _ => []
  else []

/-- The per-item recursion stage of `_validate_schema` in isolation
(lines 136-142). -/
def itemsErrors (data : GenericValue) (schema : SchemaNode) (path : String) :
    List String :=
  if schema.type = some "array" then
    match data with
    | .arr xs =>
      match schema.items with
      | some itemSchema => validateItems xs 0 itemSchema path
      | none => []
    | _ => []
  else []

/-- ValidationResult (suite.py lines 20-26): verdict plus ordered error
and warning lists. -/
structure ValidationResult : Type where
  valid : Bool
  errors : List String
  warnings : List String
deriving DecidableEq

/-- Python exception classes relevant to the facade.  `osError` and
`valueError` stand for `OSError` and `ValueError` (the latter includes
`json.JSONDecodeError`, `tomllib.TOMLDecodeError`, and
`UnicodeDecodeError`, all `ValueError` subclasses).  `configError` stands
for the `configparser.Error` family raised by `ConfigParser.read_file` on
malformed INI input (`ParsingError`, `MissingSectionHeaderError`,
`DuplicateSectionError`, ...), which subclasses `Exception` directly and
is neither an `OSError` nor a `ValueError`.  `validationError` is the
repository's own `ValidationError(Exception)`.  The payload is `str(exc)`. -/
inductive PyExc : Type where
  | osError : String → PyExc
  | valueError : String → PyExc
  | configError : String → PyExc
  | validationError : String → PyExc
deriving DecidableEq

/-- The message `str(exc)` of an exception, as interpolated by `{exc}`. -/
def PyExc.str : PyExc → String
  | .osError m => m
  | .valueError m => m
  | .configError m => m
  | .validationError m => m

/-- Whether `except (OSError, ValueError)` (suite.py line 85) catches the
exception: exactly the `OSError` and `ValueError` classes. -/
def caughtByLoadHandler : PyExc → Bool
  | .osError _ => true
  | .valueError _ => true
  | .configError _ => false
  | .validationError _ => false

/-- Abstraction of one config path and its on-disk contents, holding
exactly what the facade observes: `path.exists()`, `str(path)`,
`path.suffix`, and the outcome each format decoder would produce on the
file's bytes (`json.load` / `tomllib.load` / `ConfigParser.read_file`,
each either a decoded value or a raised exception). -/
structure FileModel : Type where
  fileExists : Bool
  pathStr : String
  pathSuffix : String
  jsonResult : Except PyExc GenericValue
  tomlResult : Except PyExc GenericValue
  iniResult : Except PyExc GenericValue

/-- The supported extension set `SUPPORTED_FORMATS` (suite.py line 13). -/
def SUPPORTED_FORMATS : List String := [".json", ".toml", ".ini"]

/-- Embeds `_load_config` (suite.py lines 100-113): dispatch on the
lowercased suffix to the matching decoder; an unsupported suffix raises
`ValidationError` (unreachable from `validate`, which filters suffixes
first). -/
def loadConfig (f : FileModel) : Except PyExc GenericValue :=
  let suffix := lowerString f.pathSuffix
  if suffix = ".json" then f.jsonResult
  else if suffix = ".toml" then f.tomlResult
  else if suffix = ".ini" then f.iniResult
  else .error (.validationError ("Unsupported format: " ++ f.pathSuffix))

/-- Embeds `ConfigValidationSuite.validate` (suite.py lines 52-93).
Python truthiness of the optional `schema` argument (`if schema:`) is
modelled by `Option SchemaNode`; an absent or empty schema dict skips the
structural check.  `ValidationResult(valid=not errors, ...)` is
`errors.isEmpty`.  An exception the `except (OSError, ValueError)` clause
does not catch propagates out of the method, modelled as `Except.error`. -/
def suiteValidate (strict : Bool) (f : FileModel) (schema : Option SchemaNode) :
    Except PyExc ValidationResult :=
  if !f.fileExists then
    let msg := "Config file '" ++ f.pathStr ++ "' does not exist."
    let errors := if strict then [msg] else []
    let warnings := if strict then [] else [msg]
    .ok ⟨errors.isEmpty, errors, warnings⟩
  else if !(SUPPORTED_FORMATS.contains (lowerString f.pathSuffix)) then
    .ok ⟨false,
      ["Unsupported config format '" ++ f.pathSuffix ++ "'. Supported formats: "
        ++ String.intercalate ", " (sortStrings SUPPORTED_FORMATS) ++ "."],
      []⟩
  else
    match loadConfig f with
    | .error exc =>
      if caughtByLoadHandler exc then
        .ok ⟨false, ["Failed to load config: " ++ exc.str], []⟩
      else
        .error exc
    | .ok data =>
      match schema with
      | some s =>
        let errors := validateSchema data s "$"
        .ok ⟨errors.isEmpty, errors, []⟩
      | none => .ok ⟨true, [], []⟩

/-- ConfigValidationSuite (suite.py lines 46-50): the only instance state
is the `strict` flag set at construction. -/
structure ConfigValidationSuite : Type where
  strict : Bool
deriving DecidableEq

/-- The `validate` method in explicit-state form: the method body reads
`self.strict` and never writes any attribute, so the post-state is the
input state. -/
def ConfigValidationSuite.validate (suite : ConfigValidationSuite) (f : FileModel)
    (schema : Option SchemaNode) :
    Except PyExc ValidationResult × ConfigValidationSuite :=
  (suiteValidate suite.strict f schema, suite)

/-- A path that does not exist on disk (decoder fields are irrelevant and
never reached). -/
def missingFile : FileModel :=
  ⟨false, "missing.json", ".json",
    .error (.osError "No such file or directory"),
    .error (.osError "No such file or directory"),
    .error (.osError "No such file or directory")⟩

/-- An existing `.json` file whose bytes are not valid JSON:
`json.load` raises `json.JSONDecodeError` (a `ValueError` subclass), and
the other decoders would fail on the same bytes too. -/
def malformedJsonFile : FileModel :=
  ⟨true, "config.json", ".json",
    .error (.valueError "Expecting value: line 1 column 1 (char 0)"),
    .error (.valueError "Invalid statement (at line 1, column 1)"),
    .error (.configError "File contains no section headers.")⟩

/-- An existing `.ini` file whose first line is not a section header:
`ConfigParser.read_file` raises `MissingSectionHeaderError`, which
subclasses `configparser.Error` (a direct `Exception` subclass), not
`ValueError` or `OSError`, so `except (OSError, ValueError)` does not
catch it. -/
def malformedIniFile : FileModel :=
  ⟨true, "settings.ini", ".ini",
    .error (.valueError "Expecting value: line 1 column 1 (char 0)"),
    .error (.valueError "Invalid statement (at line 1, column 1)"),
    .error (.configError "File contains no section headers.")⟩

/-! Helper lemmas shared by the claim theorems. -/

/-- Stage decomposition of `_validate_schema`: a failing (truthy) type
check yields exactly its own message; otherwise the result is the enum
errors, the missing-required-key errors, the per-property recursion
errors, the unexpected-key errors, and the per-item recursion errors, in
that order. -/
theorem validateSchema_decomposition (data : GenericValue) (schema : SchemaNode)
    (path : String) :
    validateSchema data schema path =
      match typeFailure data schema path with
      | some e => [e]
      | none =>
        enumErrors data schema path ++ requiredErrors data schema path
          ++ propertiesErrors data schema path ++ additionalPropErrors data schema path
          ++ itemsErrors data schema path := by
  cases hty : schema.type with
  | none =>
    cases hen : schema.enum <;> cases data <;>
      simp [validateSchema, hty, hen, typeFailure, enumErrors, requiredErrors,
        propertiesErrors, additionalPropErrors, itemsErrors]
  | some t =>
    by_cases ht : t = ""
    · subst ht
      cases hen : schema.enum <;> cases data <;>
        simp [validateSchema, hty, hen, typeFailure, enumErrors, requiredErrors,
          propertiesErrors, additionalPropErrors, itemsErrors]
    · cases hct : checkType data t with
      | some e =>
        cases data <;>
          simp [validateSchema, hty, ht, hct, typeFailure]
      | none =>
        by_cases hto : t = "object"
        · subst hto
          cases data <;> cases hen : schema.enum <;>
            simp [validateSchema, validateObject, hty, ht, hen, hct, typeFailure, enumErrors,
              requiredErrors, propertiesErrors, additionalPropErrors, itemsErrors,
              List.append_assoc]
        · by_cases hta : t = "array"
          · subst hta
            cases data <;> cases hen : schema.enum <;> cases hit : schema.items <;>
              simp [validateSchema, hty, ht, hto, hen, hct, hit, typeFailure, enumErrors,
                requiredErrors, propertiesErrors, additionalPropErrors, itemsErrors] <;>
              (split <;> simp_all)
          · cases hen : schema.enum <;> cases data <;>
              simp [validateSchema, hty, ht, hto, hta, hen, hct, typeFailure, enumErrors,
                requiredErrors, propertiesErrors, additionalPropErrors, itemsErrors]

/-- A failing truthy type check short-circuits `_validate_schema` to its
single message. -/
theorem validateSchema_of_typeFailure {data : GenericValue} {schema : SchemaNode}
    {path e : String} (h : typeFailure data schema path = some e) :
    validateSchema data schema path = [e] := by
  rw [validateSchema_decomposition, h]

/-! Claim theorems. -/

/-- C4: for every value and schema node, the validator's error list is
ordered as: the type-check failure (alone, if any), else the enum failure,
then missing-required-key errors in `required` order, then per-property
recursion errors in `properties` order, then unexpected-key errors in
sorted order, then per-item recursion errors in index order. -/
theorem C4_error_emission_order (data : GenericValue) (schema : SchemaNode)
    (path : String) :
    validateSchema data schema path =
      match typeFailure data schema path with
      | some e => [e]
      | none =>
        enumErrors data schema path ++ requiredErrors data schema path
          ++ propertiesErrors data schema path ++ additionalPropErrors data schema path
          ++ itemsErrors data schema path :=
  validateSchema_decomposition data schema path

/-- C3: when a schema node declares a type and the value fails that type
check, the validator emits exactly the one type-mismatch error for that
node and performs no enum, required, properties, items, or
additionalProperties checks there. -/
theorem C3_type_mismatch_short_circuit (data : GenericValue) (schema : SchemaNode)
    (path t : String) (hty : schema.type = some t) (ht : t ≠ "")
    (hfail : checkType data t =
      some ("Expected type '" ++ t ++ "' but received value " ++ pyRepr data)) :
    validateSchema data schema path =
      [path ++ ": Expected type '" ++ t ++ "' but received value " ++ pyRepr data] := by
  have h : typeFailure data schema path =
      some (path ++ ": " ++ ("Expected type '" ++ t ++ "' but received value "
        ++ pyRepr data)) := by
    simp [typeFailure, hty, ht, hfail]
  rw [validateSchema_of_typeFailure h]
  simp only [String.append_assoc]
  rfl

/-- Witness for C3: the spec's own instance, schema
`\x7btype: "object", required: ["x"]\x7d` against the string
`"not an object"`, yields exactly the type-mismatch error and no
missing-required-key error. -/
theorem C3_type_mismatch_short_circuit_witness :
    validateSchema (.str "not an object")
        (.mk (some "object") none ["x"] [] none true) "$" =
      ["$: Expected type 'object' but received value 'not an object'"] := by
  have h := C3_type_mismatch_short_circuit (.str "not an object")
    (.mk (some "object") none ["x"] [] none true) "$" "object"
    (by simp [SchemaNode.type]) (by decide)
    (by simp [checkType, pyRepr, pyReprString, pyEscapeChar])
  rw [h]
  rfl

/-- C5: paths grow from `"$"` with `".<key>"` per object member and
`"[<index>]"` per array element: validating `\x7b"a": [1, "two", 3]\x7d`
against `\x7btype: "object", properties: \x7ba: \x7btype: "array", items:
\x7btype: "integer"\x7d\x7d\x7d\x7d` yields exactly the single error
`$.a[1]: Expected type 'integer' but received value 'two'`. -/
theorem C5_nested_path_formatting :
    validateSchema (.obj [("a", .arr [.int 1, .str "two", .int 3])])
        (.mk (some "object") none []
          [("a", .mk (some "array") none [] []
              (some (.mk (some "integer") none [] [] none true)) true)]
          none true) "$" =
      ["$.a[1]: Expected type 'integer' but received value 'two'"] := by
  simp [validateSchema, validateObject, validateProps, validateItems, checkType,
    SchemaNode.type, SchemaNode.enum, SchemaNode.required, SchemaNode.properties,
    SchemaNode.items, SchemaNode.additionalProperties, lookupKey, pyRepr, pyReprString,
    pyEscapeChar, sortStrings]
  rfl

/-- C6 counterexample: the claim quantifies over every declared type
string outside the seven recognized ones, but the empty string is such a
string and is falsy in Python (`if schema_type:`), so the source skips the
type check entirely instead of emitting `Unknown schema type ''`, and
validation of the node continues (here the enum check still runs and
emits its own error). -/
theorem C6_counterexample :
    validateSchema (.int 1) (.mk (some "") (some [.int 2]) [] [] none true) "$" =
        ["$: value 1 is not in allowed set [2]"] ∧
      validateSchema (.int 1) (.mk (some "") (some [.int 2]) [] [] none true) "$" ≠
        ["$: Unknown schema type ''"] := by
  have h : validateSchema (.int 1) (.mk (some "") (some [.int 2]) [] [] none true) "$" =
      ["$: value 1 is not in allowed set [2]"] := by
    simp [validateSchema, SchemaNode.type, SchemaNode.enum, pyEq, pyRepr]
    rfl
  rw [h]
  exact ⟨rfl, by decide⟩

/-- C6 (amended): for every schema node whose declared `type` is a
nonempty string outside the seven recognized types, the validator emits
the single error `"<path>: Unknown schema type '<type>'"` and halts all
further validation of that subtree. -/
theorem C6_unknown_type_halts (data : GenericValue) (schema : SchemaNode)
    (path t : String) (hty : schema.type = some t) (ht : t ≠ "")
    (hu : t ∉ ["string", "number", "integer", "boolean", "array", "object", "null"]) :
    validateSchema data schema path = [path ++ ": Unknown schema type '" ++ t ++ "'"] := by
  simp only [List.mem_cons, List.mem_singleton, not_or] at hu
  obtain ⟨h1, h2, h3, h4, h5, h6, h7⟩ := hu
  have hck : checkType data t = some ("Unknown schema type '" ++ t ++ "'") := by
    simp [checkType, h1, h2, h3, h4, h5, h6, h7]
  have h : typeFailure data schema path =
      some (path ++ ": " ++ ("Unknown schema type '" ++ t ++ "'")) := by
    simp [typeFailure, hty, ht, hck]
  rw [validateSchema_of_typeFailure h]
  simp only [String.append_assoc]
  rfl

/-- Witness for C6 (amended): declared type `"text"` yields exactly
`$: Unknown schema type 'text'`. -/
theorem C6_unknown_type_halts_witness :
    validateSchema (.int 5) (.mk (some "text") none [] [] none true) "$" =
      ["$: Unknown schema type 'text'"] := by
  have h := C6_unknown_type_halts (.int 5) (.mk (some "text") none [] [] none true)
    "$" "text" (by simp [SchemaNode.type]) (by decide) (by decide)
  rw [h]
  rfl

/-- C7: every boolean value fails the `integer` and `number` type checks
with a type-mismatch error (despite booleans being representable as 0/1),
while the `boolean` type check succeeds exactly on boolean values. -/
theorem C7_boolean_distinct_from_numbers :
    (∀ b : Bool,
      checkType (.bool b) "integer" =
          some ("Expected type 'integer' but received value " ++ pyRepr (.bool b)) ∧
        checkType (.bool b) "number" =
          some ("Expected type 'number' but received value " ++ pyRepr (.bool b))) ∧
      ∀ v : GenericValue, checkType v "boolean" = none ↔ ∃ b : Bool, v = .bool b := by
  constructor
  · intro b
    cases b <;> exact ⟨rfl, rfl⟩
  · intro v
    cases v <;> simp [checkType]

/-- C10: enum membership uses Python value equality, under which booleans
equal 0/1: `True` passes `enum: [1, 2, 3]` with no error and `1` passes
`enum: [true]` with no error, although the type checks distinguish the
same values. -/
theorem C10_enum_uses_python_equality :
    validateSchema (.bool true) (.mk none (some [.int 1, .int 2, .int 3]) [] [] none true)
        "$" = [] ∧
      validateSchema (.int 1) (.mk none (some [.bool true]) [] [] none true) "$" = [] ∧
      checkType (.bool true) "integer" =
          some "Expected type 'integer' but received value True" ∧
        checkType (.int 1) "boolean" =
          some "Expected type 'boolean' but received value 1" := by
  refine ⟨?_, ?_, rfl, rfl⟩ <;>
    simp [validateSchema, SchemaNode.type, SchemaNode.enum, pyEq]

/-- C2: every ValidationResult the facade returns satisfies
`valid == (errors is empty)`; `valid` is a function of the error list
alone, so the warning list never influences it. -/
theorem C2_valid_iff_no_errors (strict : Bool) (f : FileModel)
    (schema : Option SchemaNode) (r : ValidationResult)
    (h : suiteValidate strict f schema = .ok r) :
    r.valid = r.errors.isEmpty := by
  simp only [suiteValidate] at h
  repeat' split at h
  all_goals simp_all
  all_goals (cases h; rfl)

/-- Witness for C2 at a concrete call: a missing file under
`strict=false` returns `valid=true` with no errors. -/
theorem C2_valid_iff_no_errors_witness :
    (⟨true, [], ["Config file 'missing.json' does not exist."]⟩ : ValidationResult).valid =
      (⟨true, [], ["Config file 'missing.json' does not exist."]⟩ : ValidationResult).errors.isEmpty :=
  C2_valid_iff_no_errors false missingFile none _ (by rfl)

/-- C8: on a nonexistent path the facade returns immediately — no decode,
no schema check — with the existence message as the sole warning (valid)
under `strict=false` and as the sole error (invalid) under `strict=true`. -/
theorem C8_nonexistent_path (strict : Bool) (f : FileModel)
    (schema : Option SchemaNode) (h : f.fileExists = false) :
    suiteValidate strict f schema =
      .ok ⟨!strict,
        if strict then ["Config file '" ++ f.pathStr ++ "' does not exist."] else [],
        if strict then [] else ["Config file '" ++ f.pathStr ++ "' does not exist."]⟩ := by
  simp only [suiteValidate, h]
  cases strict <;> simp

/-- Witness for C8: both strict settings at a concrete missing path. -/
theorem C8_nonexistent_path_witness :
    suiteValidate false missingFile none =
        .ok ⟨true, [], ["Config file 'missing.json' does not exist."]⟩ ∧
      suiteValidate true missingFile none =
        .ok ⟨false, ["Config file 'missing.json' does not exist."], []⟩ := by
  constructor
  · rw [C8_nonexistent_path false missingFile none rfl]
    rfl
  · rw [C8_nonexistent_path true missingFile none rfl]
    rfl

/-- C1 counterexample: an existing `.ini` file (a supported extension)
whose decoding fails with a `configparser.Error` parse failure.  The
claim says the facade catches every such decode failure and returns a
`Failed to load config` result; instead `except (OSError, ValueError)`
does not match `configparser.Error` and the exception propagates to the
caller. -/
theorem C1_counterexample :
    suiteValidate false malformedIniFile none =
      Except.error (PyExc.configError "File contains no section headers.") := by
  rfl

/-- C1 (amended): a decode failure raising `OSError` or `ValueError` —
which covers all JSON and TOML decode errors, I/O failures, and
undecodable text, but not INI parse errors — is caught and converted into
the single error `"Failed to load config: <cause>"` with `valid=false`. -/
theorem C1_caught_decode_failure (strict : Bool) (f : FileModel)
    (schema : Option SchemaNode) (exc : PyExc) (hex : f.fileExists = true)
    (hsupp : SUPPORTED_FORMATS.contains (lowerString f.pathSuffix) = true)
    (hload : loadConfig f = .error exc)
    (hcaught : caughtByLoadHandler exc = true) :
    suiteValidate strict f schema =
      .ok ⟨false, ["Failed to load config: " ++ exc.str], []⟩ := by
  simp only [suiteValidate, hex, hsupp, hload, hcaught, Bool.not_true, Bool.false_eq_true,
    if_false, if_true]

/-- Witness for C1 (amended): a malformed `.json` file is caught and
normalized. -/
theorem C1_caught_decode_failure_witness :
    suiteValidate false malformedJsonFile none =
      .ok ⟨false, ["Failed to load config: Expecting value: line 1 column 1 (char 0)"], []⟩ := by
  have h := C1_caught_decode_failure false malformedJsonFile none
    (.valueError "Expecting value: line 1 column 1 (char 0)") rfl (by rfl) (by rfl) rfl
  rw [h]
  rfl

/-- C9: the validator is a pure, deterministic function of its inputs:
the method writes no instance state (post-state equals pre-state), and a
second run on the same file contents, schema, and strict flag returns the
identical result — same valid flag, error list, and warning list. -/
theorem C9_validate_deterministic (suite : ConfigValidationSuite) (f : FileModel)
    (schema : Option SchemaNode) :
    (suite.validate f schema).2 = suite ∧
      ((suite.validate f schema).2.validate f schema).1 = (suite.validate f schema).1 :=
  ⟨rfl, rfl⟩

end ConfigValidator
